import Mathlib

/-!
Shallow embedding of the lexical front end of a small scripting-language
toolchain (a jlox-style interpreter written in Rust).  The embedding covers
`src/scanner.rs` (token kinds, the `TokenKind::from_utf8` classifier, the
`Scanner` iterator), `src/error.rs` (the lexical error model) and
`src/ast.rs` (the expression tree and its print visitor).

Modelling conventions:
* a Rust `u8` byte is a `Nat` (values are ASCII codes);
* a Rust byte slice is a `List Nat`;
* a Rust `String` is a Lean `String` where the source manipulates text, and
  byte lists are converted with `bytesToString` (one `Char` per byte, which
  agrees with UTF-8 on the ASCII inputs the scanner produces);
* a Rust indexing expression `value[i]` that can read past the end of the
  slice is modelled explicitly: classification returns a dedicated `panic`
  outcome when the source would index out of bounds;
* Rust `..` range patterns are half-open (exclusive upper bound), and the
  embedding reproduces that: `'0'..'9'` is `48 ≤ b && b < 57`, and
  `'a'..'z' | 'A'..'Z' | '_'` excludes the codes of `z` and `Z`.
-/

/-- Token kinds, mirroring the `TokenKind` enum of `scanner.rs`. -/
inductive TokenKind where
  | LeftParen
  | RightParen
  | LeftBrace
  | RightBrace
  | Comma
  | Dot
  | Minus
  | Plus
  | Semicolon
  | Slash
  | Star
  | Bang
  | BangEqual
  | Equal
  | EqualEqual
  | Greater
  | GreaterEqual
  | Less
  | LessEqual
  | Identifier
  | String
  | Number
  | And
  | Class
  | Else
  | False
  | Func
  | For
  | If
  | Nil
  | Or
  | Print
  | Return
  | Super
  | This
  | True
  | Var
  | While
  | Comment
  | NewLine
  | WhiteSpace
  deriving DecidableEq, Repr

/-- Lexical error kinds, mirroring `LoxErrorType` of `error.rs`.  The
character payload of `UnexpectedCharacter` is kept as the byte code. -/
inductive LoxErrorType where
  | UnexpectedCharacter (c : Nat)
  | UnterminatedString
  deriving DecidableEq, Repr

/-- A lexical error paired with the line it was detected on, mirroring
`LoxError` of `error.rs`. -/
structure LoxError where
  line : Nat
  type_ : LoxErrorType
  deriving DecidableEq, Repr

/-- Outcome of `TokenKind::from_utf8`: a successful classification with a
byte length, a lexical error, or a panic caused by indexing one past the
end of the slice (`value[1]` on a one-byte slice). -/
inductive FromUtf8Result where
  | ok (kind : TokenKind) (size : Nat)
  | err (e : LoxErrorType)
  | panic
  deriving DecidableEq, Repr

/-- The whitespace test of the first match arm: `'\r' | '\t' | ' '`. -/
def isWhitespaceByte (b : Nat) : Bool :=
  b == 13 || b == 9 || b == 32

/-- The identifier-byte test used both by the match pattern
`'a'..'z' | 'A'..'Z' | '_'` and by the `matches!` inside `take_while`.
Both are half-open Rust ranges, so the codes of `z` (122) and `Z` (90)
are excluded. -/
def isIdentByte (b : Nat) : Bool :=
  (97 ≤ b && b < 122) || (65 ≤ b && b < 90) || b == 95

/-- The `u8::is_ascii_digit` test used inside the number loop
(inclusive: `'0'..='9'`). -/
def isAsciiDigit (b : Nat) : Bool :=
  48 ≤ b && b ≤ 57

/-- The number-branch loop of `from_utf8`: walks `value[1..]` with a
`post_dot` flag, counting the consumed bytes.  A second `.` or a
non-digit stops the walk.  Note the count starts at `0` and the first
byte of the slice is never counted, exactly as in the source. -/
def numberSize : List Nat → Bool → Nat
  | [], _ => 0
  | b :: rest, postDot =>
    if b == 46 then
      if postDot then 0 else numberSize rest true + 1
    else if isAsciiDigit b then
      numberSize rest postDot + 1
    else
      0

/-- The string-branch loop of `from_utf8`: index of the first `"` byte
(code 34) in `value[1..]`, or `none` when the buffer ends first. -/
def stringClose : List Nat → Option Nat
  | [] => none
  | b :: rest =>
    if b == 34 then some 0 else (stringClose rest).map (· + 1)

/-- The static `KEYWORDS` perfect-hash map of `scanner.rs`.  Note `false`
is absent and the lookup is case-sensitive. -/
def keywordGet (s : String) : Option TokenKind :=
  if s = "and" then some TokenKind.And
  else if s = "class" then some TokenKind.Class
  else if s = "else" then some TokenKind.Else
  else if s = "func" then some TokenKind.Func
  else if s = "for" then some TokenKind.For
  else if s = "if" then some TokenKind.If
  else if s = "nil" then some TokenKind.Nil
  else if s = "or" then some TokenKind.Or
  else if s = "print" then some TokenKind.Print
  else if s = "return" then some TokenKind.Return
  else if s = "super" then some TokenKind.Super
  else if s = "this" then some TokenKind.This
  else if s = "true" then some TokenKind.True
  else if s = "var" then some TokenKind.Var
  else if s = "while" then some TokenKind.While
  else none

/-- Conversion of a byte list to a string, one character per byte (the
model of `String::from_utf8` / `from_utf8_unchecked` on the ASCII data
the scanner handles). -/
def bytesToString (bs : List Nat) : String :=
  String.mk (bs.map Char.ofNat)

/-- Byte list of a string literal, for stating concrete examples. -/
def strBytes (s : String) : List Nat :=
  s.toList.map Char.toNat

/-- The two-character-lookahead arms for `=`, `>`, `<`, `!`: read
`value[1]` (panicking when the slice has only one byte) and emit the
compound kind on a following `=`, the single kind otherwise. -/
def lookaheadEqual (rest : List Nat) (compound single : TokenKind) :
    FromUtf8Result :=
  match rest with
  | [] => FromUtf8Result.panic
  | b2 :: _ =>
    if b2 == 61 then FromUtf8Result.ok compound 2
    else FromUtf8Result.ok single 1

/-- `TokenKind::from_utf8`: classify the first token of a byte slice,
returning its kind and byte length, an error, or a panic where the
source would index out of bounds.  The branch order follows the source
match arms. -/
def from_utf8 : List Nat → FromUtf8Result
  | [] => FromUtf8Result.panic
  | b :: rest =>
    if isWhitespaceByte b then
      FromUtf8Result.ok TokenKind.WhiteSpace
        ((rest.takeWhile isWhitespaceByte).length + 1)
    else if b == 10 then FromUtf8Result.ok TokenKind.NewLine 1
    else if b == 40 then FromUtf8Result.ok TokenKind.LeftParen 1
    else if b == 41 then FromUtf8Result.ok TokenKind.RightParen 1
    else if b == 123 then FromUtf8Result.ok TokenKind.LeftBrace 1
    else if b == 125 then FromUtf8Result.ok TokenKind.RightBrace 1
    else if b == 44 then FromUtf8Result.ok TokenKind.Comma 1
    else if b == 46 then FromUtf8Result.ok TokenKind.Dot 1
    else if b == 45 then FromUtf8Result.ok TokenKind.Minus 1
    else if b == 43 then FromUtf8Result.ok TokenKind.Plus 1
    else if b == 59 then FromUtf8Result.ok TokenKind.Semicolon 1
    else if b == 42 then FromUtf8Result.ok TokenKind.Star 1
    else if b == 61 then lookaheadEqual rest TokenKind.EqualEqual TokenKind.Equal
    else if b == 62 then lookaheadEqual rest TokenKind.GreaterEqual TokenKind.Greater
    else if b == 60 then lookaheadEqual rest TokenKind.LessEqual TokenKind.Less
    else if b == 33 then lookaheadEqual rest TokenKind.BangEqual TokenKind.Bang
    else if b == 47 then
      match rest with
      | [] => FromUtf8Result.panic
      | b2 :: rest2 =>
        if b2 == 47 then
          FromUtf8Result.ok TokenKind.Comment
            ((rest2.takeWhile (fun c => c ≠ 10)).length + 2)
        else FromUtf8Result.ok TokenKind.Slash 1
    else if b == 34 then
      match stringClose rest with
      | some i => FromUtf8Result.ok TokenKind.String (i + 2)
      | none => FromUtf8Result.err LoxErrorType.UnterminatedString
    else if 48 ≤ b && b < 57 then
      FromUtf8Result.ok TokenKind.Number (numberSize rest false)
    else if isIdentByte b then
      let identifier := (b :: rest).takeWhile isIdentByte
      match keywordGet (bytesToString identifier) with
      | some t => FromUtf8Result.ok t identifier.length
      | none => FromUtf8Result.ok TokenKind.Identifier identifier.length
    else
      FromUtf8Result.err (LoxErrorType.UnexpectedCharacter b)

/-- A scanned token, mirroring `Token` of `scanner.rs`: kind, exact lexeme
text, (always empty) literal field, and the line it was stamped with. -/
structure Token where
  kind : TokenKind
  lexeme : String
  literal : String
  line : Nat
  deriving DecidableEq, Repr

/-- The `Scanner` state of `scanner.rs`: the owned byte buffer, the cursor
`current`, the reserved `start` field and the 1-based line counter. -/
structure Scanner where
  content : List Nat
  current : Nat
  start : Nat
  line : Nat
  deriving DecidableEq, Repr

/-- `Scanner::new`: cursor and `start` at 0, line counter at 1. -/
def Scanner.new (content : List Nat) : Scanner :=
  { content := content, current := 0, start := 0, line := 1 }

/-- Count of newline characters in a lexeme, the model of
`lexeme.chars().filter(|c| *c == '\n').count()`. -/
def countNL (s : String) : Nat :=
  (s.data.filter (fun c => c == Char.ofNat 10)).length

/-- The special-case line update inside `Scanner::next`: `+1` for a
`NewLine` token, `+` the count of embedded newlines for a `String`
token, unchanged otherwise. -/
def lineAdvance (kind : TokenKind) (lexeme : String) (line : Nat) : Nat :=
  match kind with
  | TokenKind.NewLine => line + 1
  | TokenKind.String => line + countNL lexeme
  | _ => line

/-- One pulled item of the scanner sequence: a token, a positioned error,
or the panic outcome propagated from classification. -/
inductive ScanItem where
  | token (t : Token)
  | error (e : LoxError)
  | panic
  deriving DecidableEq, Repr

/-- `Scanner::next` of the `Iterator` implementation: `none` once
`current` reaches the end of the buffer; otherwise classify
`content[current..]`, and on success advance `current` by the token
size, update `line`, and yield a token stamped with the post-advance
line; on error yield the error without touching any state. -/
def Scanner.next (s : Scanner) : Option ScanItem × Scanner :=
  if s.content.length ≤ s.current then (none, s)
  else
    let contentSlice := s.content.drop s.current
    match from_utf8 contentSlice with
    | FromUtf8Result.ok tokenType tokenSize =>
      let lexeme := bytesToString (contentSlice.take tokenSize)
      let newLine := lineAdvance tokenType lexeme s.line
      (some (ScanItem.token
        { kind := tokenType, lexeme := lexeme, literal := "", line := newLine }),
       { s with current := s.current + tokenSize, line := newLine })
    | FromUtf8Result.err errorType =>
      (some (ScanItem.error { line := s.line, type_ := errorType }), s)
    | FromUtf8Result.panic => (some ScanItem.panic, s)

/-- State reached after one pull, for iterating the scanner. -/
def nextState (s : Scanner) : Scanner :=
  (Scanner.next s).2

/-- Drive the scanner for at most `fuel` pulls, collecting the yielded
items; stops early when the iterator returns `none`. -/
def Scanner.run : Nat → Scanner → List ScanItem
  | 0, _ => []
  | n + 1, s =>
    match Scanner.next s with
    | (none, _) => []
    | (some item, s2) => item :: Scanner.run n s2

/-- Abbreviation for the string type, usable inside the `TokenKind`
namespace where the bare name `String` denotes a token-kind
constructor. -/
abbrev Str : Type := String

/-- The `fmt::Display` implementation for `TokenKind` (note the source
renders `Comma` as the misspelt `Comman`). -/
def TokenKind.display : TokenKind → Str
  | TokenKind.LeftParen => "LeftParen"
  | TokenKind.RightParen => "RightParen"
  | TokenKind.LeftBrace => "LeftBrace"
  | TokenKind.RightBrace => "RightBrace"
  | TokenKind.Comma => "Comman"
  | TokenKind.Dot => "Dot"
  | TokenKind.Minus => "Minus"
  | TokenKind.Plus => "Plus"
  | TokenKind.Semicolon => "Semicolon"
  | TokenKind.Slash => "Slash"
  | TokenKind.Star => "Star"
  | TokenKind.Bang => "Bang"
  | TokenKind.BangEqual => "BangEqual"
  | TokenKind.Equal => "Equal"
  | TokenKind.EqualEqual => "EqualEqual"
  | TokenKind.Greater => "Greater"
  | TokenKind.GreaterEqual => "GreaterEqual"
  | TokenKind.Less => "Less"
  | TokenKind.LessEqual => "LessEqual"
  | TokenKind.Identifier => "Identifier"
  | TokenKind.String => "String"
  | TokenKind.Number => "Number"
  | TokenKind.And => "And"
  | TokenKind.Class => "Class"
  | TokenKind.Else => "Else"
  | TokenKind.False => "False"
  | TokenKind.Func => "Func"
  | TokenKind.For => "For"
  | TokenKind.If => "If"
  | TokenKind.Nil => "Nil"
  | TokenKind.Or => "Or"
  | TokenKind.Print => "Print"
  | TokenKind.Return => "Return"
  | TokenKind.Super => "Super"
  | TokenKind.This => "This"
  | TokenKind.True => "True"
  | TokenKind.Var => "Var"
  | TokenKind.While => "While"
  | TokenKind.Comment => "Comment"
  | TokenKind.NewLine => "NewLine"
  | TokenKind.WhiteSpace => "WhiteSpace"

/-- The `fmt::Display` implementation for `Token`: kind name,
backtick-quoted lexeme, trailing literal field. -/
def Token.display (t : Token) : String :=
  t.kind.display ++ " \x60" ++ t.lexeme ++ "\x60 " ++ t.literal

/-- The model of Rust's default (`{}`) formatting for an `f64` value. -/
def numFormat (n : Float) : String :=
  toString n

/-- The closed expression tree of `ast.rs`.  Borrowed child references
become direct recursive children. -/
inductive Expr where
  | LiteralString (s : String)
  | LiteralNumber (n : Float)
  | LiteralTrue
  | LiteralFalse
  | LiteralNil
  | Grouping (expression : Expr)
  | Unary (op : Token) (expression : Expr)
  | Binary (left : Expr) (operator : Token) (right : Expr)

/-- `ASTPrint`'s `visit` for `Expr`, the structurally recursive print
visitor of `ast.rs`. -/
def ASTPrint.visit : Expr → String
  | Expr.LiteralString s => "literal " ++ s
  | Expr.LiteralNumber n => "literal " ++ numFormat n
  | Expr.LiteralTrue => "literal true"
  | Expr.LiteralFalse => "literal false"
  | Expr.LiteralNil => "literal nil"
  | Expr.Grouping e => "grouping ( " ++ ASTPrint.visit e ++ " )"
  | Expr.Unary op e => "unary " ++ op.display ++ " " ++ ASTPrint.visit e
  | Expr.Binary l op r =>
      "binary " ++ ASTPrint.visit l ++ " " ++ op.display ++ " " ++
        ASTPrint.visit r

/-- Pulling at or past the end of the buffer returns `none` and leaves the
state untouched. -/
theorem next_none (s : Scanner) (hlen : s.content.length ≤ s.current) :
    Scanner.next s = (none, s) := by
  unfold Scanner.next
  rw [if_pos hlen]

/-- A successful classification advances `current` by the token size,
applies `lineAdvance`, and yields a token stamped with the post-advance
line. -/
theorem next_ok (s : Scanner) (k : TokenKind) (sz : Nat)
    (hlen : s.current < s.content.length)
    (h : from_utf8 (s.content.drop s.current) = FromUtf8Result.ok k sz) :
    Scanner.next s =
      (some (ScanItem.token
        { kind := k,
          lexeme := bytesToString ((s.content.drop s.current).take sz),
          literal := "",
          line := lineAdvance k (bytesToString ((s.content.drop s.current).take sz)) s.line }),
       { s with
          current := s.current + sz,
          line := lineAdvance k (bytesToString ((s.content.drop s.current).take sz)) s.line }) := by
  unfold Scanner.next
  rw [if_neg (by omega)]
  simp only [h]

/-- A failed classification yields the positioned error and leaves the
whole scanner state untouched. -/
theorem next_err (s : Scanner) (e : LoxErrorType)
    (hlen : s.current < s.content.length)
    (h : from_utf8 (s.content.drop s.current) = FromUtf8Result.err e) :
    Scanner.next s = (some (ScanItem.error { line := s.line, type_ := e }), s) := by
  unfold Scanner.next
  rw [if_neg (by omega)]
  simp only [h]

/-- A classification that would index out of bounds propagates the panic
outcome, leaving the state untouched. -/
theorem next_panic (s : Scanner)
    (hlen : s.current < s.content.length)
    (h : from_utf8 (s.content.drop s.current) = FromUtf8Result.panic) :
    Scanner.next s = (some ScanItem.panic, s) := by
  unfold Scanner.next
  rw [if_neg (by omega)]
  simp only [h]

/-- For token kinds other than `NewLine` and `String`, the line counter is
unchanged by the special-case update. -/
theorem lineAdvance_other (k : TokenKind) (lex : String) (line : Nat)
    (h1 : k ≠ TokenKind.NewLine) (h2 : k ≠ TokenKind.String) :
    lineAdvance k lex line = line := by
  cases k <;> first
    | rfl
    | exact absurd rfl h1
    | exact absurd rfl h2

/-- `stringClose` returns the first index whose byte is a double quote. -/
theorem stringClose_eq_some (rest : List Nat) (i : Nat)
    (hi : rest.get? i = some 34)
    (hmin : ∀ k, k < i → rest.get? k ≠ some 34) :
    stringClose rest = some i := by
  induction rest generalizing i with
  | nil => simp at hi
  | cons b tl ih =>
    cases i with
    | zero =>
      simp at hi
      simp [stringClose, hi]
    | succ j =>
      have hb : ¬(b == 34) = true := by
        have h0 := hmin 0 (Nat.succ_pos j)
        simp at h0
        simp [h0]
      have hj : tl.get? j = some 34 := by simpa using hi
      have htl : stringClose tl = some j := by
        refine ih j hj ?_
        intro k hk
        have := hmin (k + 1) (by omega)
        simpa using this
      simp [stringClose, hb, htl]

/-- `stringClose` returns `none` when no byte is a double quote. -/
theorem stringClose_eq_none (rest : List Nat)
    (h : ∀ i, ¬ rest.get? i = some 34) :
    stringClose rest = none := by
  induction rest with
  | nil => rfl
  | cons b tl ih =>
    have hb : ¬(b == 34) = true := by
      have h0 := h 0
      simp at h0
      simp [h0]
    have htl : stringClose tl = none := by
      refine ih ?_
      intro i
      have := h (i + 1)
      simpa using this
    simp [stringClose, hb, htl]

/-- Reduction of the classifier on a leading double quote. -/
theorem from_utf8_quote (rest : List Nat) :
    from_utf8 (34 :: rest) =
      match stringClose rest with
      | some i => FromUtf8Result.ok TokenKind.String (i + 2)
      | none => FromUtf8Result.err LoxErrorType.UnterminatedString := rfl

/-- C1: the claimed round trip fails on the code.  On the one-byte input
`5` the number branch reports a token length of 0, so the scanner yields a
zero-length `Number` token without advancing: every pull returns the same
empty-lexeme token, the concatenated lexemes never reconstruct the buffer,
and the iterator never reaches the terminal `none` state. -/
theorem c1_roundtrip_stall :
    Scanner.next (Scanner.new (strBytes "5")) =
      (some (ScanItem.token
        { kind := TokenKind.Number, lexeme := "", literal := "", line := 1 }),
       Scanner.new (strBytes "5")) ∧
    (∀ n, nextState^[n] (Scanner.new (strBytes "5")) = Scanner.new (strBytes "5")) ∧
    (∀ n, ∃ item,
      (Scanner.next (nextState^[n] (Scanner.new (strBytes "5")))).1 = some item) ∧
    Scanner.run 3 (Scanner.new (strBytes "5")) =
      [ScanItem.token { kind := TokenKind.Number, lexeme := "", literal := "", line := 1 },
       ScanItem.token { kind := TokenKind.Number, lexeme := "", literal := "", line := 1 },
       ScanItem.token { kind := TokenKind.Number, lexeme := "", literal := "", line := 1 }] := by
  have h1 : Scanner.next (Scanner.new (strBytes "5")) =
      (some (ScanItem.token
        { kind := TokenKind.Number, lexeme := "", literal := "", line := 1 }),
       Scanner.new (strBytes "5")) := by decide
  have hfix : nextState (Scanner.new (strBytes "5")) = Scanner.new (strBytes "5") := by
    rw [nextState, h1]
  refine ⟨h1, fun n => Function.iterate_fixed hfix n, fun n => ?_, by decide⟩
  rw [Function.iterate_fixed hfix n, h1]
  exact ⟨_, rfl⟩

/-- C2: the claimed number classification fails on the code.  The loop
counts only the bytes after the first one, so `123.45.6` classifies as a
`Number` of length 5 (lexeme `123.4`, not `123.45`), the rest scans as
`5.` and then endlessly repeated zero-length `Number` tokens (no `Dot`
token and no `6` token); furthermore `9` as a first byte is rejected
outright (the half-open range pattern excludes it) and a lone digit gets
length 0. -/
theorem c2_number_length :
    from_utf8 (strBytes "123.45.6") = FromUtf8Result.ok TokenKind.Number 5 ∧
    Scanner.run 4 (Scanner.new (strBytes "123.45.6")) =
      [ScanItem.token { kind := TokenKind.Number, lexeme := "123.4", literal := "", line := 1 },
       ScanItem.token { kind := TokenKind.Number, lexeme := "5.", literal := "", line := 1 },
       ScanItem.token { kind := TokenKind.Number, lexeme := "", literal := "", line := 1 },
       ScanItem.token { kind := TokenKind.Number, lexeme := "", literal := "", line := 1 }] ∧
    from_utf8 (strBytes "9") = FromUtf8Result.err (LoxErrorType.UnexpectedCharacter 57) ∧
    from_utf8 (strBytes "5") = FromUtf8Result.ok TokenKind.Number 0 := by decide

/-- C3: the claimed bounds safety fails on the code.  A buffer ending in
`=`, `>`, `<` or `!` with no following byte makes the classifier read
`value[1]` one past the slice end (a panic), instead of returning the
single-character kind with length 1; with a following byte present the
classification behaves as described. -/
theorem c3_lookahead_panic :
    from_utf8 (strBytes "!") = FromUtf8Result.panic ∧
    from_utf8 (strBytes "=") = FromUtf8Result.panic ∧
    from_utf8 (strBytes ">") = FromUtf8Result.panic ∧
    from_utf8 (strBytes "<") = FromUtf8Result.panic ∧
    Scanner.run 2 (Scanner.new (strBytes "a=")) =
      [ScanItem.token { kind := TokenKind.Identifier, lexeme := "a", literal := "", line := 1 },
       ScanItem.panic] ∧
    from_utf8 (strBytes "!=") = FromUtf8Result.ok TokenKind.BangEqual 2 ∧
    from_utf8 (strBytes "!a") = FromUtf8Result.ok TokenKind.Bang 1 := by decide

/-- C4 counterexample: the claim fails at the concrete input `While1`,
which classifies as `Identifier` of length 5 (the keyword map is
case-sensitive, so `While` is not a keyword hit), and at `name1`, whose
trailing `1` never becomes a `Number` token with lexeme `1` — it yields
endlessly repeated zero-length `Number` tokens. -/
theorem c4_counterexample :
    from_utf8 (strBytes "While1") = FromUtf8Result.ok TokenKind.Identifier 5 ∧
    Scanner.run 4 (Scanner.new (strBytes "name1")) =
      [ScanItem.token { kind := TokenKind.Identifier, lexeme := "name", literal := "", line := 1 },
       ScanItem.token { kind := TokenKind.Number, lexeme := "", literal := "", line := 1 },
       ScanItem.token { kind := TokenKind.Number, lexeme := "", literal := "", line := 1 },
       ScanItem.token { kind := TokenKind.Number, lexeme := "", literal := "", line := 1 }] := by
  decide

/-- C4 (amended): scanning `while` yields exactly one `While` keyword token
and terminates; `While1` classifies as `Identifier` of length 5 (keyword
lookup is case-sensitive), leaving `1` as a separate classification; and
`name1` lexes as `Identifier` `name` of length 4 — the trailing digit is
then classified as a `Number`, but with the reported length 0 the yielded
`Number` tokens have empty lexemes and repeat forever. -/
theorem c4_keyword_boundary :
    Scanner.run 2 (Scanner.new (strBytes "while")) =
      [ScanItem.token { kind := TokenKind.While, lexeme := "while", literal := "", line := 1 }] ∧
    from_utf8 (strBytes "While1") = FromUtf8Result.ok TokenKind.Identifier 5 ∧
    from_utf8 (strBytes "name1") = FromUtf8Result.ok TokenKind.Identifier 4 ∧
    from_utf8 (strBytes "1") = FromUtf8Result.ok TokenKind.Number 0 ∧
    Scanner.run 3 (Scanner.new (strBytes "name1")) =
      [ScanItem.token { kind := TokenKind.Identifier, lexeme := "name", literal := "", line := 1 },
       ScanItem.token { kind := TokenKind.Number, lexeme := "", literal := "", line := 1 },
       ScanItem.token { kind := TokenKind.Number, lexeme := "", literal := "", line := 1 }] := by
  decide

/-- C5: the claimed identifier classification fails on the code.  The
half-open range patterns exclude the letters `z` and `Z`: as a first byte
they are rejected as unexpected characters, and inside a run they stop
consumption (`az` classifies as `Identifier` of length 1).  The remaining
parts of the claim do hold: `false` is absent from the keyword table and
lexes as `Identifier`, underscores are accepted, and `while` hits the
keyword table. -/
theorem c5_identifier_run :
    from_utf8 (strBytes "z") = FromUtf8Result.err (LoxErrorType.UnexpectedCharacter 122) ∧
    from_utf8 (strBytes "Z") = FromUtf8Result.err (LoxErrorType.UnexpectedCharacter 90) ∧
    from_utf8 (strBytes "az") = FromUtf8Result.ok TokenKind.Identifier 1 ∧
    from_utf8 (strBytes "false") = FromUtf8Result.ok TokenKind.Identifier 5 ∧
    from_utf8 (strBytes "_foo") = FromUtf8Result.ok TokenKind.Identifier 4 ∧
    from_utf8 (strBytes "while") = FromUtf8Result.ok TokenKind.While 5 := by decide

/-- C6: when classification fails, `Scanner::next` yields the positioned
error without advancing `current` (indeed without touching any state), so
every subsequent pull re-classifies the same byte and yields the same
error — the sequence never ends after an error. -/
theorem c6_error_no_advance (s : Scanner) (e : LoxErrorType)
    (hlen : s.current < s.content.length)
    (herr : from_utf8 (s.content.drop s.current) = FromUtf8Result.err e) :
    Scanner.next s = (some (ScanItem.error { line := s.line, type_ := e }), s) ∧
    ∀ n, nextState^[n] s = s ∧
      Scanner.next (nextState^[n] s) =
        (some (ScanItem.error { line := s.line, type_ := e }), s) := by
  have h1 := next_err s e hlen herr
  have hfix : nextState s = s := by rw [nextState, h1]
  refine ⟨h1, fun n => ?_⟩
  have hit := Function.iterate_fixed hfix n
  exact ⟨hit, by rw [hit, h1]⟩

/-- C6 witness: pulling on the unexpected byte `@` yields the same
positioned error with an unchanged state, also after five pulls. -/
theorem c6_witness :
    Scanner.next (Scanner.new (strBytes "@")) =
      (some (ScanItem.error { line := 1, type_ := LoxErrorType.UnexpectedCharacter 64 }),
       Scanner.new (strBytes "@")) ∧
    nextState^[5] (Scanner.new (strBytes "@")) = Scanner.new (strBytes "@") := by
  have h := c6_error_no_advance (Scanner.new (strBytes "@"))
      (LoxErrorType.UnexpectedCharacter 64) (by decide) (by decide)
  exact ⟨h.1, (h.2 5).1⟩

/-- C7: for an input starting with a double quote, classification succeeds
with kind `String` and length `i + 2` (both quotes included) exactly when
the first closing quote of the tail sits at index `i`, and fails with
`UnterminatedString` when no closing quote exists before the buffer ends;
only the byte 34 is inspected, so a backslash has no special meaning. -/
theorem c7_string_classification (rest : List Nat) :
    (∀ i, rest.get? i = some 34 → (∀ k, k < i → ¬ rest.get? k = some 34) →
      from_utf8 (34 :: rest) = FromUtf8Result.ok TokenKind.String (i + 2)) ∧
    ((∀ i, ¬ rest.get? i = some 34) →
      from_utf8 (34 :: rest) = FromUtf8Result.err LoxErrorType.UnterminatedString) := by
  constructor
  · intro i hi hmin
    rw [from_utf8_quote, stringClose_eq_some rest i hi hmin]
  · intro hnone
    rw [from_utf8_quote, stringClose_eq_none rest hnone]

/-- C7 witness: the tail backslash-then-quote closes at index 1, so the
token spans 3 bytes — the backslash does not escape the quote. -/
theorem c7_witness :
    from_utf8 (34 :: [92, 34]) = FromUtf8Result.ok TokenKind.String 3 := by
  refine (c7_string_classification [92, 34]).1 1 (by decide) ?_
  intro k hk
  interval_cases k
  decide

/-- C8: on a successful `String` classification the scanner advances the
line counter by the count of newline characters embedded in the lexeme
(and by 1 for a `NewLine` classification), and the yielded token is
stamped with the post-advance line value, attributing a multi-line
string to its last line. -/
theorem c8_line_stamping (s : Scanner) (sz : Nat)
    (hlen : s.current < s.content.length) :
    (from_utf8 (s.content.drop s.current) = FromUtf8Result.ok TokenKind.String sz →
      Scanner.next s =
        (some (ScanItem.token
          { kind := TokenKind.String,
            lexeme := bytesToString ((s.content.drop s.current).take sz),
            literal := "",
            line := s.line + countNL (bytesToString ((s.content.drop s.current).take sz)) }),
         { s with
            current := s.current + sz,
            line := s.line + countNL (bytesToString ((s.content.drop s.current).take sz)) })) ∧
    (from_utf8 (s.content.drop s.current) = FromUtf8Result.ok TokenKind.NewLine sz →
      Scanner.next s =
        (some (ScanItem.token
          { kind := TokenKind.NewLine,
            lexeme := bytesToString ((s.content.drop s.current).take sz),
            literal := "",
            line := s.line + 1 }),
         { s with current := s.current + sz, line := s.line + 1 })) := by
  constructor
  · intro h
    have hnext := next_ok s TokenKind.String sz hlen h
    simpa [lineAdvance] using hnext
  · intro h
    have hnext := next_ok s TokenKind.NewLine sz hlen h
    simpa [lineAdvance] using hnext

/-- C8 witness: the two-line string literal starting at line 1 is yielded
as a single `String` token stamped with line 2, and the scanner state
lands on line 2. -/
theorem c8_witness :
    Scanner.next (Scanner.new (strBytes "\"a\nb\"")) =
      (some (ScanItem.token
        { kind := TokenKind.String, lexeme := "\"a\nb\"", literal := "", line := 2 }),
       { content := strBytes "\"a\nb\"", current := 5, start := 0, line := 2 }) := by
  have h := (c8_line_stamping (Scanner.new (strBytes "\"a\nb\"")) 5 (by decide)).1
    (by decide)
  rw [h]
  decide

/-- C9: the print visitor is a pure, total structural recursion over the
closed expression type: each of the eight variants renders in the
documented `literal|grouping|unary|binary` grammar, with `true`, `false`
and `nil` rendered as their words, numbers via the default numeric
formatting, and strings bare without quoting. -/
theorem c9_astprint_grammar :
    (∀ s, ASTPrint.visit (Expr.LiteralString s) = "literal " ++ s) ∧
    (∀ n, ASTPrint.visit (Expr.LiteralNumber n) = "literal " ++ numFormat n) ∧
    ASTPrint.visit Expr.LiteralTrue = "literal true" ∧
    ASTPrint.visit Expr.LiteralFalse = "literal false" ∧
    ASTPrint.visit Expr.LiteralNil = "literal nil" ∧
    (∀ e, ASTPrint.visit (Expr.Grouping e) =
      "grouping ( " ++ ASTPrint.visit e ++ " )") ∧
    (∀ t e, ASTPrint.visit (Expr.Unary t e) =
      "unary " ++ t.display ++ " " ++ ASTPrint.visit e) ∧
    (∀ l t r, ASTPrint.visit (Expr.Binary l t r) =
      "binary " ++ ASTPrint.visit l ++ " " ++ t.display ++ " " ++ ASTPrint.visit r) :=
  ⟨fun _ => rfl, fun _ => rfl, rfl, rfl, rfl, fun _ => rfl, fun _ _ => rfl,
   fun _ _ _ => rfl⟩

/-- The cursor step preserves the buffer and the reserved span-start
field, in every branch of `Scanner::next`. -/
theorem nextState_content_start (s : Scanner) :
    (nextState s).content = s.content ∧ (nextState s).start = s.start := by
  by_cases hlen : s.content.length ≤ s.current
  · rw [nextState, next_none s hlen]
    exact ⟨rfl, rfl⟩
  · push_neg at hlen
    cases hfu : from_utf8 (s.content.drop s.current) with
    | ok k sz =>
      rw [nextState, next_ok s k sz hlen hfu]
      exact ⟨rfl, rfl⟩
    | err e =>
      rw [nextState, next_err s e hlen hfu]
      exact ⟨rfl, rfl⟩
    | panic =>
      rw [nextState, next_panic s hlen hfu]
      exact ⟨rfl, rfl⟩

/-- C10: every pull of `Scanner::next` leaves `content` and `start`
unchanged (so `start` remains 0 forever from a fresh scanner), and a pull
that yields a token whose kind is neither `NewLine` nor `String` leaves
the `line` field unchanged as well. -/
theorem c10_frame (s : Scanner) :
    (nextState s).content = s.content ∧
    (nextState s).start = s.start ∧
    (∀ t, (Scanner.next s).1 = some (ScanItem.token t) →
      ¬ t.kind = TokenKind.NewLine → ¬ t.kind = TokenKind.String →
      (nextState s).line = s.line) ∧
    (∀ c n, (nextState^[n] (Scanner.new c)).start = 0) := by
  refine ⟨(nextState_content_start s).1, (nextState_content_start s).2, ?_, ?_⟩
  · intro t ht h1 h2
    by_cases hlen : s.content.length ≤ s.current
    · rw [nextState, next_none s hlen]
    · push_neg at hlen
      cases hfu : from_utf8 (s.content.drop s.current) with
      | ok k sz =>
        have hnext := next_ok s k sz hlen hfu
        rw [hnext] at ht
        simp only [Option.some.injEq, ScanItem.token.injEq] at ht
        subst ht
        rw [nextState, hnext]
        exact lineAdvance_other k _ s.line h1 h2
      | err e => rw [nextState, next_err s e hlen hfu]
      | panic => rw [nextState, next_panic s hlen hfu]
  · intro c n
    induction n with
    | zero => rfl
    | succ m ih =>
      rw [Function.iterate_succ_apply', (nextState_content_start _).2, ih]

/-- C10 witness: one pull on the buffer `+` keeps the buffer, keeps the
line at 1 for the non-newline non-string `Plus` token, and three pulls
from a fresh scanner keep `start` at 0. -/
theorem c10_witness :
    (nextState (Scanner.new (strBytes "+"))).content = strBytes "+" ∧
    (nextState (Scanner.new (strBytes "+"))).line = 1 ∧
    (nextState^[3] (Scanner.new (strBytes "+"))).start = 0 := by
  have h := c10_frame (Scanner.new (strBytes "+"))
  refine ⟨h.1, ?_, h.2.2.2 (strBytes "+") 3⟩
  exact h.2.2.1 { kind := TokenKind.Plus, lexeme := "+", literal := "", line := 1 }
    (by decide) (by decide) (by decide)
